import Mathlib

/-!
Shallow embedding of the eBird alert scraper (`scraper.py`): the record data
model, MD5-based sighting identity, the three extraction strategies with
their fallback chain, the merge of new sightings into persisted history, and
the exit-status logic of `main`.  DOM access is modelled by the capability
interface the code uses: a node either yields text and an optional `href`
attribute, or is malformed and raises (modelled with `Except`).
-/

namespace Scraper

/-- A sighting record, mirroring the dict built by the parsers in
`scraper.py`.  `observer` is optional because `generate_sighting_id` reads it
with `sighting.get('observer', '')`; every in-repo constructor sets it. -/
structure Sighting where
  species : String
  location : String
  date : String
  observer : Option String
  count : String
  scraped_at : String
  species_url : Option String
  location_url : Option String
  id : String
deriving DecidableEq, Repr

/-! ### MD5 (as used by `hashlib.md5(...).hexdigest()`), over UTF-8 bytes -/

/-- UTF-8 encoding of one Unicode scalar value (given as its code point). -/
def utf8EncodeChar (c : Nat) : List Nat :=
  if c < 0x80 then [c]
  else if c < 0x800 then [0xC0 + c / 64, 0x80 + c % 64]
  else if c < 0x10000 then [0xE0 + c / 4096, 0x80 + (c / 64) % 64, 0x80 + c % 64]
  else [0xF0 + c / 262144, 0x80 + (c / 4096) % 64, 0x80 + (c / 64) % 64, 0x80 + c % 64]

/-- The UTF-8 bytes of a string (what `str.encode()` produces). -/
def strBytes (s : String) : List Nat :=
  s.data.flatMap (fun c => utf8EncodeChar c.toNat)

def M32 : Nat := 4294967296

def add32 (a b : Nat) : Nat := (a + b) % M32

/-- Left-rotation of a 32-bit word. -/
def rotl32 (x n : Nat) : Nat := ((x <<< n) + (x >>> (32 - n))) % M32

/-- The 64 MD5 sine-derived constants. -/
def md5K : List Nat :=
  [0xd76aa478, 0xe8c7b756, 0x242070db, 0xc1bdceee,
   0xf57c0faf, 0x4787c62a, 0xa8304613, 0xfd469501,
   0x698098d8, 0x8b44f7af, 0xffff5bb1, 0x895cd7be,
   0x6b901122, 0xfd987193, 0xa679438e, 0x49b40821,
   0xf61e2562, 0xc040b340, 0x265e5a51, 0xe9b6c7aa,
   0xd62f105d, 0x02441453, 0xd8a1e681, 0xe7d3fbc8,
   0x21e1cde6, 0xc33707d6, 0xf4d50d87, 0x455a14ed,
   0xa9e3e905, 0xfcefa3f8, 0x676f02d9, 0x8d2a4c8a,
   0xfffa3942, 0x8771f681, 0x6d9d6122, 0xfde5380c,
   0xa4beea44, 0x4bdecfa9, 0xf6bb4b60, 0xbebfbc70,
   0x289b7ec6, 0xeaa127fa, 0xd4ef3085, 0x04881d05,
   0xd9d4d039, 0xe6db99e5, 0x1fa27cf8, 0xc4ac5665,
   0xf4292244, 0x432aff97, 0xab9423a7, 0xfc93a039,
   0x655b59c3, 0x8f0ccc92, 0xffeff47d, 0x85845dd1,
   0x6fa87e4f, 0xfe2ce6e0, 0xa3014314, 0x4e0811a1,
   0xf7537e82, 0xbd3af235, 0x2ad7d2bb, 0xeb86d391]

/-- The 64 MD5 per-round left-rotation amounts. -/
def md5S : List Nat :=
  [7, 12, 17, 22, 7, 12, 17, 22, 7, 12, 17, 22, 7, 12, 17, 22,
   5, 9, 14, 20, 5, 9, 14, 20, 5, 9, 14, 20, 5, 9, 14, 20,
   4, 11, 16, 23, 4, 11, 16, 23, 4, 11, 16, 23, 4, 11, 16, 23,
   6, 10, 15, 21, 6, 10, 15, 21, 6, 10, 15, 21, 6, 10, 15, 21]

/-- The MD5 round function for round `i`. -/
def md5F (i b c d : Nat) : Nat :=
  if i < 16 then (b &&& c) ||| ((b ^^^ 0xFFFFFFFF) &&& d)
  else if i < 32 then (d &&& b) ||| ((d ^^^ 0xFFFFFFFF) &&& c)
  else if i < 48 then b ^^^ c ^^^ d
  else c ^^^ (b ||| (d ^^^ 0xFFFFFFFF))

/-- The MD5 message-word index for round `i`. -/
def md5G (i : Nat) : Nat :=
  if i < 16 then i
  else if i < 32 then (5 * i + 1) % 16
  else if i < 48 then (3 * i + 5) % 16
  else (7 * i) % 16

/-- Word `j` of a 64-byte chunk, read little-endian. -/
def leWord (chunk : List Nat) (j : Nat) : Nat :=
  chunk.getD (4 * j) 0 + 256 * chunk.getD (4 * j + 1) 0 +
    65536 * chunk.getD (4 * j + 2) 0 + 16777216 * chunk.getD (4 * j + 3) 0

/-- One MD5 round applied to the state `(a, b, c, d)`. -/
def md5Step (chunk : List Nat) (st : Nat × Nat × Nat × Nat) (i : Nat) :
    Nat × Nat × Nat × Nat :=
  let (a, b, c, d) := st
  let f := (md5F i b c d + a + md5K.getD i 0 + leWord chunk (md5G i)) % M32
  (d, add32 b (rotl32 f (md5S.getD i 0)), b, c)

/-- Process one 64-byte chunk. -/
def md5Chunk (st : Nat × Nat × Nat × Nat) (chunk : List Nat) :
    Nat × Nat × Nat × Nat :=
  let (a0, b0, c0, d0) := st
  let (a, b, c, d) := (List.range 64).foldl (md5Step chunk) (a0, b0, c0, d0)
  (add32 a0 a, add32 b0 b, add32 c0 c, add32 d0 d)

/-- MD5 padding: `0x80`, zeros to 56 mod 64, then the bit length as 8
little-endian bytes. -/
def md5Pad (msg : List Nat) : List Nat :=
  let len := msg.length
  let zeros := (119 - len % 64) % 64
  msg ++ 0x80 :: List.replicate zeros 0 ++
    ((List.range 8).map (fun i => ((8 * len) % 2 ^ 64) >>> (8 * i) % 256))

/-- Split a byte list into 64-byte chunks (structural recursion so that it
reduces in the kernel; `acc` holds the current chunk reversed). -/
def chunksGo : List Nat → List Nat → List (List Nat)
  | [], acc => if acc.isEmpty then [] else [acc.reverse]
  | b :: rest, acc =>
    if acc.length = 63 then (b :: acc).reverse :: chunksGo rest []
    else chunksGo rest (b :: acc)

def chunks64 (l : List Nat) : List (List Nat) := chunksGo l []

/-- The MD5 digest of a byte list as four 32-bit state words. -/
def md5Digest (msg : List Nat) : Nat × Nat × Nat × Nat :=
  (chunks64 (md5Pad msg)).foldl md5Chunk
    (0x67452301, 0xefcdab89, 0x98badcfe, 0x10325476)

def hexDigit (n : Nat) : Char :=
  if n < 10 then Char.ofNat (48 + n) else Char.ofNat (87 + n)

def byteHex (b : Nat) : String :=
  String.mk [hexDigit (b / 16), hexDigit (b % 16)]

/-- A 32-bit state word rendered as 8 hex characters, little-endian byte
order (as in MD5's `hexdigest`). -/
def wordHexLE (w : Nat) : String :=
  String.join ((List.range 4).map (fun i => byteHex ((w >>> (8 * i)) % 256)))

/-- `hashlib.md5(msg).hexdigest()`. -/
def md5hex (msg : List Nat) : String :=
  let (a, b, c, d) := md5Digest msg
  wordHexLE a ++ wordHexLE b ++ wordHexLE c ++ wordHexLE d

/-- `generate_sighting_id` (scraper.py:24-27): the first 12 hex characters of
the MD5 digest of `species_location_date_observer`, with a missing observer
read as the empty string. -/
def generate_sighting_id (sighting : Sighting) : String :=
  let unique_str := sighting.species ++ "_" ++ sighting.location ++ "_" ++
    sighting.date ++ "_" ++ sighting.observer.getD ""
  (md5hex (strBytes unique_str)).take 12

/-- The spec's "12-hex-char fingerprint" of a string (§4.2): the truncated
hex digest of the 128-bit hash. -/
def fingerprint (s : String) : String :=
  (md5hex (strBytes s)).take 12

/-! ### DOM capability model

The parsers consume markup through three operations: `get_text` (BeautifulSoup
`get_text(strip=True)`), `.get('href')`, and `['href']` subscripting.  A node
is either a well-formed element carrying its stripped text and optional
`href`, or a malformed node on which any access raises (Python exception,
modelled as `Except.error`). -/

inductive Node where
  | elem (text : String) (href : Option String)
  | broken
deriving DecidableEq, Repr

/-- `node.get_text(strip=True)`; raises on a malformed node. -/
def get_text : Node → Except Unit String
  | .elem t _ => .ok t
  | .broken => .error ()

/-- `node.get('href')`: `None` when the attribute is absent. -/
def get_attr_href : Node → Except Unit (Option String)
  | .elem _ h => .ok h
  | .broken => .error ()

/-- `node['href']`: raises `KeyError` when the attribute is absent. -/
def subscript_href : Node → Except Unit String
  | .elem _ (some h) => .ok h
  | .elem _ none => .error ()
  | .broken => .error ()

/-- The sub-elements `select_one` finds inside one observation row
(scraper.py:110-114); `none` means the selector matched nothing. -/
structure Row where
  speciesEl : Option Node
  locationEl : Option Node
  dateEl : Option Node
  observerEl : Option Node
  countEl : Option Node
deriving DecidableEq, Repr

/-- `"https://ebird.org" + href if href.startswith('/') else href`
(scraper.py:131,133,178). -/
def resolve_href (href : String) : String :=
  if href.startsWith "/" then "https://ebird.org" ++ href else href

/-- The body of `parse_observation_row`'s `try` block (scraper.py:109-136).
`.ok none` is the explicit `return None` for a missing/empty species;
`.error` is an escaping exception. -/
def parse_observation_row_core (row : Row) (timestamp : String) :
    Except Unit (Option Sighting) := do
  let species? : Option String ←
    match row.speciesEl with
    | some el => do pure (some (← get_text el))
    | none => pure none
  match species? with
  | none => pure none
  | some species =>
    if species = "" then pure none
    else do
      let location ← match row.locationEl with
        | some el => get_text el
        | none => pure "Unknown"
      let date ← match row.dateEl with
        | some el => get_text el
        | none => pure "Unknown"
      let observer ← match row.observerEl with
        | some el => get_text el
        | none => pure "Unknown"
      let count ← match row.countEl with
        | some el => get_text el
        | none => pure "1"
      let species_url ← match row.speciesEl with
        | some el => do
          match (← get_attr_href el) with
          | some h => pure (if h = "" then none else some (resolve_href h))
          | none => pure none
        | none => pure none
      let location_url ← match row.locationEl with
        | some el => do
          match (← get_attr_href el) with
          | some h => pure (if h = "" then none else some (resolve_href h))
          | none => pure none
        | none => pure none
      let base : Sighting :=
        { species, location, date, observer := some observer, count,
          scraped_at := timestamp, species_url, location_url, id := "" }
      pure (some { base with id := generate_sighting_id base })

/-- `parse_observation_row` (scraper.py:107-139): the `except` clause turns
any internal failure into `None`. -/
def parse_observation_row (row : Row) (timestamp : String) : Option Sighting :=
  match parse_observation_row_core row timestamp with
  | .ok r => r
  | .error _ => none

/-- The body of `parse_species_section`'s `try` block (scraper.py:144-158). -/
def parse_species_section_core (sec : Node) (timestamp : String) :
    Except Unit (Option Sighting) := do
  let text ← get_text sec
  if text.length < 3 then pure none
  else
    let base : Sighting :=
      { species := text.take 100, location := "See details", date := "Recent",
        observer := some "Unknown", count := "1", scraped_at := timestamp,
        species_url := none, location_url := none, id := "" }
    pure (some { base with id := generate_sighting_id base })

/-- `parse_species_section` (scraper.py:142-160): exceptions become `None`. -/
def parse_species_section (sec : Node) (timestamp : String) : Option Sighting :=
  match parse_species_section_core sec timestamp with
  | .ok r => r
  | .error _ => none

/-- `parse_generic_alerts` (scraper.py:163-183), iterating over the links
matched by `a[href*="/species/"], a[href*="speciesCode"]`.  There is no
`try/except` in this function: a failing link access propagates. -/
def parse_generic_alerts (links : List Node) (timestamp : String) :
    Except Unit (List Sighting) := do
  match links with
  | [] => pure []
  | link :: rest =>
    let species ← get_text link
    if species ≠ "" ∧ 2 < species.length then do
      let href ← subscript_href link
      let base : Sighting :=
        { species, location := "Unknown", date := "Recent",
          observer := some "Unknown", count := "1", scraped_at := timestamp,
          species_url := some (resolve_href href), location_url := none,
          id := "" }
      let s := { base with id := generate_sighting_id base }
      pure (s :: (← parse_generic_alerts rest timestamp))
    else
      parse_generic_alerts rest timestamp

/-- The candidate elements each strategy's top-level selector returns for the
page (scraper.py:87,94,168). -/
structure Doc where
  rows : List Row
  sections : List Node
  links : List Node
deriving Repr

/-- The strategy chain of `scrape_alerts` (scraper.py:87-104): method 1
(observation rows), then method 2 (species sections) if method 1 found
nothing, then method 3 (generic links) if still nothing. -/
def scrape_alerts (doc : Doc) (timestamp : String) :
    Except Unit (List Sighting) :=
  let s1 := doc.rows.filterMap (fun r => parse_observation_row r timestamp)
  if s1 = [] then
    let s2 := doc.sections.filterMap (fun s => parse_species_section s timestamp)
    if s2 = [] then parse_generic_alerts doc.links timestamp
    else .ok s2
  else .ok s1

/-! ### Merge -/

/-- The loop of `merge_sightings` (scraper.py:208-212): `ids` is the
accumulated id set, `merged` the accumulated output. -/
def mergeLoop (ids : List String) (merged : List Sighting) :
    List Sighting → List Sighting
  | [] => merged
  | s :: rest =>
    if s.id ∈ ids then mergeLoop ids merged rest
    else mergeLoop (s.id :: ids) (merged ++ [s]) rest

/-- `merge_sightings` (scraper.py:202-215): start from a copy of `existing`
and the set of its ids, append each new sighting whose id is unseen. -/
def merge_sightings (existing new : List Sighting) : List Sighting :=
  mergeLoop (existing.map (fun s => s.id)) existing new

/-! ### main -/

/-- Python truthiness of an optional string (`if not username or ...`). -/
def truthy : Option String → Bool
  | none => false
  | some s => !(s == "")

/-- What one run produced, besides its exit code. -/
structure RunResult where
  exit_code : Nat
  saved : Option (List Sighting)
  rendered : Option (List Sighting)
deriving DecidableEq, Repr

/-- `main` (scraper.py:429-470) over its environment: the credential
variables, whether `login_to_ebird` returned `True`, what `scrape_alerts`
returned (or raised), and the persisted history `load_existing_sightings`
would read.  `.error` models an exception escaping `main` (the process then
exits with a nonzero status). -/
def main (username password : Option String) (login_ok : Bool)
    (scraped : Except Unit (List Sighting)) (existing : List Sighting) :
    Except Unit RunResult :=
  if !(truthy username) || !(truthy password) then .ok ⟨1, none, none⟩
  else if !login_ok then .ok ⟨1, none, none⟩
  else do
    let new_sightings ← scraped
    if new_sightings.isEmpty then
      if existing.isEmpty then pure ⟨0, none, some []⟩
      else pure ⟨0, none, some existing⟩
    else
      let merged := merge_sightings existing new_sightings
      pure ⟨0, some merged, some merged⟩

end Scraper

/-! ### Helper lemmas about the merge loop -/

namespace Scraper

lemma mergeLoop_id_mono (x : String) (new : List Sighting) :
    ∀ (ids : List String) (merged : List Sighting),
      x ∈ merged.map (fun s => s.id) →
      x ∈ (mergeLoop ids merged new).map (fun s => s.id) := by
  induction new with
  | nil => intro ids merged h; simpa [mergeLoop] using h
  | cons a rest ih =>
    intro ids merged h
    by_cases ha : a.id ∈ ids
    · simpa [mergeLoop, ha] using ih ids merged h
    · have h' : x ∈ (merged ++ [a]).map (fun s => s.id) := by
        simp only [List.map_append, List.mem_append]
        exact Or.inl h
      simpa [mergeLoop, ha] using ih (a.id :: ids) (merged ++ [a]) h'

lemma mergeLoop_id_covers (new : List Sighting) :
    ∀ (ids : List String) (merged : List Sighting),
      (∀ y ∈ ids, y ∈ merged.map (fun s => s.id)) →
      ∀ s ∈ new, s.id ∈ (mergeLoop ids merged new).map (fun t => t.id) := by
  induction new with
  | nil => intro _ _ _ s hs; cases hs
  | cons a rest ih =>
    intro ids merged hinv s hs
    by_cases ha : a.id ∈ ids
    · rcases List.mem_cons.mp hs with rfl | hs'
      · simpa [mergeLoop, ha] using
          mergeLoop_id_mono s.id rest ids merged (hinv s.id ha)
      · simpa [mergeLoop, ha] using ih ids merged hinv s hs'
    · have hinv' : ∀ y ∈ a.id :: ids, y ∈ (merged ++ [a]).map (fun t => t.id) := by
        intro y hy
        simp only [List.map_append, List.mem_append, List.map_cons,
          List.map_nil, List.mem_singleton]
        rcases List.mem_cons.mp hy with rfl | hy'
        · exact Or.inr (by simp)
        · exact Or.inl (hinv y hy')
      rcases List.mem_cons.mp hs with rfl | hs'
      · have : s.id ∈ (merged ++ [s]).map (fun t => t.id) := by simp
        simpa [mergeLoop, ha] using
          mergeLoop_id_mono s.id rest (s.id :: ids) (merged ++ [s]) this
      · simpa [mergeLoop, ha] using ih (a.id :: ids) (merged ++ [a]) hinv' s hs'

lemma mergeLoop_all_mem (new : List Sighting) :
    ∀ (ids : List String) (merged : List Sighting),
      (∀ s ∈ new, s.id ∈ ids) → mergeLoop ids merged new = merged := by
  induction new with
  | nil => intro ids merged _; rfl
  | cons a rest ih =>
    intro ids merged h
    have ha : a.id ∈ ids := h a (List.mem_cons_self a rest)
    simpa [mergeLoop, ha] using
      ih ids merged (fun s hs => h s (List.mem_cons_of_mem a hs))

lemma mergeLoop_append_sublist (new : List Sighting) :
    ∀ (ids : List String) (merged : List Sighting),
      ∃ t, mergeLoop ids merged new = merged ++ t ∧ t.Sublist new := by
  induction new with
  | nil => intro ids merged; exact ⟨[], by simp [mergeLoop], List.nil_sublist []⟩
  | cons a rest ih =>
    intro ids merged
    by_cases ha : a.id ∈ ids
    · obtain ⟨t, h1, h2⟩ := ih ids merged
      exact ⟨t, by simpa [mergeLoop, ha] using h1, h2.cons a⟩
    · obtain ⟨t, h1, h2⟩ := ih (a.id :: ids) (merged ++ [a])
      refine ⟨a :: t, ?_, h2.cons₂ a⟩
      simp only [mergeLoop, ha, if_false, ite_false]
      rw [h1, List.append_assoc, List.singleton_append]

lemma mergeLoop_count_of_mem (x : String) (new : List Sighting) :
    ∀ (ids : List String) (merged : List Sighting), x ∈ ids →
      ((mergeLoop ids merged new).map (fun s => s.id)).count x =
        (merged.map (fun s => s.id)).count x := by
  induction new with
  | nil => intro ids merged _; rfl
  | cons a rest ih =>
    intro ids merged hx
    by_cases ha : a.id ∈ ids
    · simpa [mergeLoop, ha] using ih ids merged hx
    · have hne : a.id ≠ x := fun h => ha (h ▸ hx)
      have := ih (a.id :: ids) (merged ++ [a]) (List.mem_cons_of_mem _ hx)
      simp only [mergeLoop, ha, if_false, ite_false]
      rw [this]
      simp [List.count_append, List.count_singleton', hne]

lemma mergeLoop_count_new (x : String) (new : List Sighting) :
    ∀ (ids : List String) (merged : List Sighting),
      x ∉ ids → (∃ s ∈ new, s.id = x) →
      ((mergeLoop ids merged new).map (fun s => s.id)).count x =
        (merged.map (fun s => s.id)).count x + 1 := by
  induction new with
  | nil =>
    rintro ids merged _ ⟨s, hs, _⟩
    cases hs
  | cons a rest ih =>
    rintro ids merged hx ⟨s, hs, hsx⟩
    by_cases ha : a.id ∈ ids
    · have hax : a.id ≠ x := fun h => hx (h ▸ ha)
      have hrest : ∃ s ∈ rest, s.id = x := by
        rcases List.mem_cons.mp hs with rfl | hs'
        · exact absurd hsx hax
        · exact ⟨s, hs', hsx⟩
      simpa [mergeLoop, ha] using ih ids merged hx hrest
    · by_cases hax : a.id = x
      · have hmem : x ∈ a.id :: ids := by simp [hax]
        simp only [mergeLoop, ha, if_false, ite_false]
        rw [mergeLoop_count_of_mem x rest (a.id :: ids) (merged ++ [a]) hmem]
        simp [List.count_append, List.count_singleton', hax]
      · have hrest : ∃ s ∈ rest, s.id = x := by
          rcases List.mem_cons.mp hs with rfl | hs'
          · exact absurd hsx hax
          · exact ⟨s, hs', hsx⟩
        have hx' : x ∉ a.id :: ids := by
          intro hmem
          rcases List.mem_cons.mp hmem with h | h
          · exact hax h.symm
          · exact hx h
        have := ih (a.id :: ids) (merged ++ [a]) hx' hrest
        simp only [mergeLoop, ha, if_false, ite_false]
        rw [this]
        simp [List.count_append, List.count_singleton', hax]

lemma mergeLoop_id_nodup (new : List Sighting) :
    ∀ (ids : List String) (merged : List Sighting),
      (merged.map (fun s => s.id)).Nodup →
      (∀ y ∈ merged.map (fun s => s.id), y ∈ ids) →
      ((mergeLoop ids merged new).map (fun s => s.id)).Nodup := by
  induction new with
  | nil => intro ids merged h _; simpa [mergeLoop] using h
  | cons a rest ih =>
    intro ids merged hnd hsub
    by_cases ha : a.id ∈ ids
    · simpa [mergeLoop, ha] using ih ids merged hnd hsub
    · have hnotin : a.id ∉ merged.map (fun s => s.id) :=
        fun h => ha (hsub a.id h)
      have hnd' : ((merged ++ [a]).map (fun s => s.id)).Nodup := by
        simp only [List.map_append, List.map_cons, List.map_nil]
        simp [List.nodup_append, hnd, hnotin]
      have hsub' : ∀ y ∈ (merged ++ [a]).map (fun s => s.id), y ∈ a.id :: ids := by
        intro y hy
        simp only [List.map_append, List.mem_append, List.map_cons,
          List.map_nil, List.mem_singleton] at hy
        rcases hy with hy | hy
        · exact List.mem_cons_of_mem _ (hsub y hy)
        · simp [hy]
      simpa [mergeLoop, ha] using ih (a.id :: ids) (merged ++ [a]) hnd' hsub'

/-- Concrete records used to instantiate the merge theorems. -/
def sampleA : Sighting :=
  ⟨"Blue Jay", "Park", "2024-01-01", some "Alice", "1", "T", none, none, "aaa111aaa111"⟩

def sampleB : Sighting :=
  ⟨"Varied Thrush", "Trail", "2024-01-02", some "Bob", "2", "T", none, none, "bbb222bbb222"⟩

end Scraper

/-! ### Claim theorems -/

open Scraper

set_option maxRecDepth 40000

/-- Sanity anchors for the MD5 embedding (standard test vectors). -/

theorem md5_empty_vector : Scraper.md5hex (Scraper.strBytes "") =
    "d41d8cd98f00b204e9800998ecf8427e" := by decide

theorem md5_abc_vector : Scraper.md5hex (Scraper.strBytes "abc") =
    "900150983cd24fb0d6963f7d28e17f72" := by decide

/-- Concrete record for instantiating the identity theorems: the spec's
Blue Jay scenario. -/
def blueJayRecord : Scraper.Sighting :=
  ⟨"Blue Jay", "Park", "2024-01-01", some "Alice", "1",
   "2024-01-02T00:00:00Z", none, none, ""⟩

/-- Same four identifying fields as `blueJayRecord`, different count, URLs
and timestamp. -/
def blueJayRecordAlt : Scraper.Sighting :=
  ⟨"Blue Jay", "Park", "2024-01-01", some "Alice", "7",
   "2025-05-05T00:00:00Z", some "https://ebird.org/species/blujay", none, "xyz"⟩

/-- Claim C3: `generate_sighting_id` is deterministic and depends only on
species, location, date and observer: it is the first 12 hex characters of
the 128-bit MD5 digest of `species_location_date_observer`, with a missing
observer read as the empty string; for the Blue Jay record the id equals the
fingerprint of "Blue Jay_Park_2024-01-01_Alice" (concretely
"cc785ff981fb"). -/
theorem sighting_id_deterministic :
    (∀ r r' : Scraper.Sighting, r.species = r'.species →
      r.location = r'.location → r.date = r'.date → r.observer = r'.observer →
      generate_sighting_id r = generate_sighting_id r') ∧
    (∀ r : Scraper.Sighting, generate_sighting_id r =
      fingerprint (r.species ++ "_" ++ r.location ++ "_" ++ r.date ++ "_" ++
        r.observer.getD "")) ∧
    (∀ r : Scraper.Sighting, r.observer = none →
      generate_sighting_id r =
        fingerprint (r.species ++ "_" ++ r.location ++ "_" ++ r.date ++ "_" ++ "")) ∧
    (∀ r : Scraper.Sighting, r.species = "Blue Jay" → r.location = "Park" →
      r.date = "2024-01-01" → r.observer = some "Alice" →
      generate_sighting_id r = fingerprint "Blue Jay_Park_2024-01-01_Alice") ∧
    fingerprint "Blue Jay_Park_2024-01-01_Alice" = "cc785ff981fb" := by
  refine ⟨?_, ?_, ?_, ?_, by decide⟩
  · intro r r' h1 h2 h3 h4
    simp [generate_sighting_id, h1, h2, h3, h4]
  · intro r; rfl
  · intro r h
    simp [generate_sighting_id, fingerprint, h]
  · intro r h1 h2 h3 h4
    have : generate_sighting_id r =
        fingerprint (r.species ++ "_" ++ r.location ++ "_" ++ r.date ++ "_" ++
          r.observer.getD "") := rfl
    rw [this, h1, h2, h3, h4]
    have harg : "Blue Jay" ++ "_" ++ "Park" ++ "_" ++ "2024-01-01" ++ "_" ++
        (some "Alice").getD "" = "Blue Jay_Park_2024-01-01_Alice" := rfl
    rw [harg]

/-- Witness for C3 at the Blue Jay record. -/
theorem sighting_id_deterministic_witness :
    generate_sighting_id blueJayRecord = generate_sighting_id blueJayRecordAlt ∧
    generate_sighting_id blueJayRecord =
      fingerprint "Blue Jay_Park_2024-01-01_Alice" :=
  ⟨sighting_id_deterministic.1 blueJayRecord blueJayRecordAlt rfl rfl rfl rfl,
   sighting_id_deterministic.2.2.2.1 blueJayRecord rfl rfl rfl rfl⟩

/-- Claim C4: merge is idempotent — merging the same candidate batch a
second time changes nothing, because after the first application every id of
the batch is already present. -/
theorem merge_idempotent (S R : List Scraper.Sighting) :
    merge_sightings (merge_sightings S R) R = merge_sightings S R := by
  unfold merge_sightings
  apply mergeLoop_all_mem
  intro s hs
  exact mergeLoop_id_covers R (S.map (fun t => t.id)) S (fun y hy => hy) s hs

/-- Claim C5: merge is monotone and order-preserving — the result is the
existing set followed by a subsequence of the incoming batch (so existing
order and the appended records' relative order are preserved, and every
existing id appears), and every incoming record whose id is absent from
existing occurs in the result exactly once. -/
theorem merge_monotone_ordered (existing new : List Scraper.Sighting) :
    (∃ t, merge_sightings existing new = existing ++ t ∧ t.Sublist new) ∧
    (∀ x ∈ existing.map (fun s => s.id),
      x ∈ (merge_sightings existing new).map (fun s => s.id)) ∧
    (∀ s ∈ new, s.id ∉ existing.map (fun t => t.id) →
      ((merge_sightings existing new).map (fun t => t.id)).count s.id = 1) := by
  unfold merge_sightings
  refine ⟨mergeLoop_append_sublist new (existing.map (fun s => s.id)) existing,
    ?_, ?_⟩
  · intro x hx
    exact mergeLoop_id_mono x new (existing.map (fun s => s.id)) existing hx
  · intro s hs hnot
    have h0 : (existing.map (fun t => t.id)).count s.id = 0 :=
      List.count_eq_zero.mpr hnot
    rw [mergeLoop_count_new s.id new (existing.map (fun s => s.id)) existing
      hnot ⟨s, hs, rfl⟩, h0]

/-- Witness for C5: merging a fresh record appends it exactly once. -/
theorem merge_monotone_ordered_witness :
    sampleB ∈ [sampleB] ∧
    ((merge_sightings [sampleA] [sampleB]).map
      (fun t => t.id)).count sampleB.id = 1 :=
  ⟨by decide,
   (merge_monotone_ordered [sampleA] [sampleB]).2.2 sampleB (by decide)
     (by decide)⟩

/-- Claim C9: merge preserves the RecordSet invariant — if no two records of
the existing set share an id, no two records of the merged set do either. -/
theorem merge_preserves_id_nodup (existing new : List Scraper.Sighting)
    (h : (existing.map (fun s => s.id)).Nodup) :
    ((merge_sightings existing new).map (fun s => s.id)).Nodup := by
  unfold merge_sightings
  exact mergeLoop_id_nodup new (existing.map (fun s => s.id)) existing h
    (fun y hy => hy)

/-- Witness for C9 at concrete record sets. -/
theorem merge_preserves_id_nodup_witness :
    (([sampleA] : List Scraper.Sighting).map (fun s => s.id)).Nodup ∧
    ((merge_sightings [sampleA] [sampleB, sampleB]).map
      (fun s => s.id)).Nodup :=
  ⟨by decide, merge_preserves_id_nodup [sampleA] [sampleB, sampleB] (by decide)⟩

/-- Claim C1 counterexample: with valid credentials, a successful login, an
empty extraction and an empty history, `main` renders an empty report and
exits 0 — not 1 as the claim requires for the no-data-at-all case. -/
theorem main_empty_exit_counterexample :
    main (some "user") (some "pw") true (.ok []) [] =
      .ok ⟨0, none, some []⟩ ∧ (0 : Nat) ≠ 1 :=
  ⟨rfl, by decide⟩

/-- Claim C1 (amended): the exit status is 0 on every successful run,
including zero new records with nonempty history and even the case where
history and the new batch are both empty (an empty report is rendered); it
is 1 on missing credentials or login failure; a retrieval failure escapes
`main` as an exception (so the process still terminates unsuccessfully). -/
theorem main_exit_status (username password : Option String) (login_ok : Bool)
    (scraped : Except Unit (List Scraper.Sighting))
    (existing : List Scraper.Sighting) :
    (truthy username = false ∨ truthy password = false →
      main username password login_ok scraped existing = .ok ⟨1, none, none⟩) ∧
    (truthy username = true → truthy password = true → login_ok = false →
      main username password login_ok scraped existing = .ok ⟨1, none, none⟩) ∧
    (truthy username = true → truthy password = true → login_ok = true →
      scraped = .error () →
      main username password login_ok scraped existing = .error ()) ∧
    (truthy username = true → truthy password = true → login_ok = true →
      ∀ new_sightings, scraped = .ok new_sightings →
      (main username password login_ok scraped existing).map
        (fun r => r.exit_code) = .ok 0) := by
  refine ⟨?_, ?_, ?_, ?_⟩
  · rintro (h | h) <;> simp [main, h]
  · intro h1 h2 h3
    simp [main, h1, h2, h3]
  · intro h1 h2 h3 h4
    subst h4
    simp [main, h1, h2, h3]
    rfl
  · intro h1 h2 h3 new_sightings h4
    subst h3; subst h4
    rcases new_sightings with _ | ⟨a, rest⟩
    · rcases existing with _ | ⟨e, es⟩
      · simp [main, h1, h2]
        rfl
      · simp [main, h1, h2]
        rfl
    · simp [main, h1, h2]
      rfl

/-- Witness for C1 at concrete runs: empty-everything still exits 0, and
missing credentials exit 1. -/
theorem main_exit_status_witness :
    (main (some "user") (some "pw") true (.ok []) []).map
      (fun r => r.exit_code) = .ok 0 ∧
    main none (some "pw") true (.ok []) [] = .ok ⟨1, none, none⟩ :=
  ⟨(main_exit_status (some "user") (some "pw") true (.ok []) []).2.2.2
      (by decide) (by decide) rfl [] rfl,
   (main_exit_status none (some "pw") true (.ok []) []).1 (Or.inl (by decide))⟩

/-- Claim C2 counterexample: under the species-section strategy the location
default is "See details", not "Unknown" — the claim allows only the date
default to differ. -/
theorem species_section_defaults_counterexample :
    (parse_species_section (Node.elem "Blue Jay" none) "T").map
      (fun s => s.location) = some "See details" ∧
    "See details" ≠ "Unknown" :=
  ⟨rfl, by decide⟩

/-- Claim C2 (amended): an observation row with only a species element yields
the defaults "Unknown"/"Unknown"/"Unknown"/"1" for location/date/observer/
count; the species-section strategy produces location "See details", date
"Recent", observer "Unknown", count "1"; the generic-link strategy produces
location "Unknown", date "Recent", observer "Unknown", count "1". -/
theorem default_field_values (sp t u ts : String) (hopt : Option String) :
    (sp ≠ "" →
      parse_observation_row ⟨some (.elem sp none), none, none, none, none⟩ ts =
        some { species := sp, location := "Unknown", date := "Unknown",
               observer := some "Unknown", count := "1", scraped_at := ts,
               species_url := none, location_url := none,
               id := generate_sighting_id ⟨sp, "Unknown", "Unknown",
                 some "Unknown", "1", ts, none, none, ""⟩ }) ∧
    (3 ≤ t.length →
      parse_species_section (.elem t hopt) ts =
        some { species := t.take 100, location := "See details",
               date := "Recent", observer := some "Unknown", count := "1",
               scraped_at := ts, species_url := none, location_url := none,
               id := generate_sighting_id ⟨t.take 100, "See details", "Recent",
                 some "Unknown", "1", ts, none, none, ""⟩ }) ∧
    (t ≠ "" → 2 < t.length →
      parse_generic_alerts [.elem t (some u)] ts =
        .ok [{ species := t, location := "Unknown", date := "Recent",
               observer := some "Unknown", count := "1", scraped_at := ts,
               species_url := some (resolve_href u), location_url := none,
               id := generate_sighting_id ⟨t, "Unknown", "Recent",
                 some "Unknown", "1", ts, some (resolve_href u), none, ""⟩ }]) := by
  refine ⟨?_, ?_, ?_⟩
  · intro hsp
    simp [parse_observation_row, parse_observation_row_core, get_text,
      get_attr_href, hsp, Bind.bind, Except.bind, Pure.pure, Except.pure]
  · intro ht
    have ht' : ¬(t.length < 3) := by omega
    simp [parse_species_section, parse_species_section_core, get_text, ht',
      Bind.bind, Except.bind, Pure.pure, Except.pure]
  · intro h1 h2
    have hc : ¬t = "" ∧ 2 < t.length := ⟨h1, h2⟩
    simp [parse_generic_alerts, get_text, subscript_href, hc,
      Bind.bind, Except.bind, Pure.pure, Except.pure]

/-- Witness for C2 at concrete elements, projecting the four defaulted
fields of each strategy's record. -/
theorem default_field_values_witness :
    (parse_observation_row
        ⟨some (.elem "Blue Jay" none), none, none, none, none⟩ "T").map
      (fun s => (s.location, s.date, s.observer, s.count)) =
      some ("Unknown", "Unknown", some "Unknown", "1") ∧
    (parse_species_section (.elem "Varied Thrush" none) "T").map
      (fun s => (s.location, s.date, s.observer, s.count)) =
      some ("See details", "Recent", some "Unknown", "1") ∧
    (parse_generic_alerts [.elem "Varied Thrush" (some "/species/vathru")] "T").map
      (fun l => l.map (fun s => (s.location, s.date, s.observer, s.count))) =
      .ok [("Unknown", "Recent", some "Unknown", "1")] := by
  refine ⟨?_, ?_, ?_⟩
  · rw [(default_field_values "Blue Jay" "x" "x" "T" none).1 (by decide)]
    rfl
  · rw [(default_field_values "x" "Varied Thrush" "x" "T" none).2.1 (by decide)]
    rfl
  · rw [(default_field_values "x" "Varied Thrush" "/species/vathru" "T"
      none).2.2 (by decide) (by decide)]
    rfl

/-- Claim C6: the strategy chain is first-success-wins — whenever the
observation-row strategy yields at least one record, `scrape_alerts` returns
exactly those records, so no fallback-strategy record appears. -/
theorem strategy_first_success (doc : Doc) (ts : String)
    (h : doc.rows.filterMap (fun r => parse_observation_row r ts) ≠ []) :
    scrape_alerts doc ts =
      .ok (doc.rows.filterMap (fun r => parse_observation_row r ts)) := by
  simp [scrape_alerts, h]

/-- A document on which the primary strategy succeeds while both fallback
strategies also have matching candidates. -/
def strategyDoc : Doc :=
  ⟨[⟨some (.elem "Blue Jay" none), none, none, none, none⟩],
   [.elem "Some species section" none],
   [.elem "Blue Jay" (some "/species/blujay")]⟩

/-- Witness for C6: on `strategyDoc` the output is the primary strategy's. -/
theorem strategy_first_success_witness :
    scrape_alerts strategyDoc "T" =
      .ok (strategyDoc.rows.filterMap (fun r => parse_observation_row r "T")) :=
  strategy_first_success strategyDoc "T" (by decide)

/-- Claim C7 counterexample: an observation row whose species element carries
the attribute `href=""` (present but empty) produces a record with no
species_url at all, while the claim requires a non-"/"-prefixed href to be
stored unchanged. -/
theorem href_resolution_counterexample :
    (parse_observation_row
        ⟨some (.elem "Blue Jay" (some "")), none, none, none, none⟩ "T").map
      (fun s => s.species_url) = some none ∧
    (none : Option String) ≠ some "" :=
  ⟨rfl, by decide⟩

/-- Claim C7 (amended): an href starting with "/" is stored with the origin
"https://ebird.org" prefixed, and any other non-empty href is stored
unchanged (this holds for the species and location URLs of the
observation-row strategy and for the species URL of the generic strategy);
an observation-row element whose href is the empty string yields no URL
field. -/
theorem href_resolution (sp lt t u ts : String) :
    (u.startsWith "/" = true → resolve_href u = "https://ebird.org" ++ u) ∧
    (u.startsWith "/" = false → resolve_href u = u) ∧
    (sp ≠ "" → u ≠ "" →
      (parse_observation_row
          ⟨some (.elem sp (some u)), none, none, none, none⟩ ts).map
        (fun s => s.species_url) = some (some (resolve_href u))) ∧
    (sp ≠ "" → u ≠ "" →
      (parse_observation_row
          ⟨some (.elem sp none), some (.elem lt (some u)), none, none, none⟩
          ts).map
        (fun s => s.location_url) = some (some (resolve_href u))) ∧
    (sp ≠ "" →
      (parse_observation_row
          ⟨some (.elem sp (some "")), none, none, none, none⟩ ts).map
        (fun s => s.species_url) = some none) ∧
    (t ≠ "" → 2 < t.length →
      (parse_generic_alerts [.elem t (some u)] ts).map
        (fun l => l.map (fun s => s.species_url)) =
        .ok [some (resolve_href u)]) := by
  refine ⟨?_, ?_, ?_, ?_, ?_, ?_⟩
  · intro h
    simp [resolve_href, h]
  · intro h
    simp [resolve_href, h]
  · intro hsp hu
    simp [parse_observation_row, parse_observation_row_core, get_text,
      get_attr_href, hsp, hu, Bind.bind, Except.bind, Pure.pure, Except.pure]
  · intro hsp hu
    simp [parse_observation_row, parse_observation_row_core, get_text,
      get_attr_href, hsp, hu, Bind.bind, Except.bind, Pure.pure, Except.pure]
  · intro hsp
    simp [parse_observation_row, parse_observation_row_core, get_text,
      get_attr_href, hsp, Bind.bind, Except.bind, Pure.pure, Except.pure]
  · intro h1 h2
    have hc : ¬t = "" ∧ 2 < t.length := ⟨h1, h2⟩
    simp [parse_generic_alerts, get_text, subscript_href, hc,
      Bind.bind, Except.bind, Pure.pure, Except.pure]
    rfl

/-- Evaluation of `String.startsWith` at the concrete relative href (the
`substrEq` loop is well-founded, so it is unfolded by its equations). -/
theorem startsWith_slash_species : "/species/abc".startsWith "/" = true := by
  have h0 : "/species/abc".startsWith "/" =
      Substring.beq ⟨"/species/abc", 0, ⟨1⟩⟩ ⟨"/", 0, ⟨1⟩⟩ := rfl
  have h1 : Substring.beq ⟨"/species/abc", 0, ⟨1⟩⟩ ⟨"/", 0, ⟨1⟩⟩ =
      "/species/abc".substrEq 0 "/" 0 1 := by
    simp [Substring.beq, Substring.bsize]
  rw [h0, h1, String.substrEq]
  rw [String.substrEq.loop.eq_def]
  norm_num
  rw [String.substrEq.loop.eq_def]
  norm_num
  decide

/-- Evaluation of `String.startsWith` at the concrete absolute href. -/
theorem startsWith_abs_url : "https://x/y".startsWith "/" = false := by
  have h0 : "https://x/y".startsWith "/" =
      Substring.beq ⟨"https://x/y", 0, ⟨1⟩⟩ ⟨"/", 0, ⟨1⟩⟩ := rfl
  have h1 : Substring.beq ⟨"https://x/y", 0, ⟨1⟩⟩ ⟨"/", 0, ⟨1⟩⟩ =
      "https://x/y".substrEq 0 "/" 0 1 := by
    simp [Substring.beq, Substring.bsize]
  rw [h0, h1, String.substrEq]
  rw [String.substrEq.loop.eq_def]
  norm_num
  decide

/-- Witness for C7 at concrete hrefs: a relative href is origin-prefixed, an
absolute one passes through. -/
theorem href_resolution_witness :
    resolve_href "/species/abc" = "https://ebird.org/species/abc" ∧
    resolve_href "https://x/y" = "https://x/y" ∧
    (parse_observation_row
        ⟨some (.elem "Blue Jay" (some "/species/abc")), none, none, none,
         none⟩ "T").map
      (fun s => s.species_url) = some (some (resolve_href "/species/abc")) := by
  refine ⟨?_, ?_, ?_⟩
  · exact (href_resolution "x" "x" "x" "/species/abc" "T").1
      startsWith_slash_species
  · exact (href_resolution "x" "x" "x" "https://x/y" "T").2.1
      startsWith_abs_url
  · exact (href_resolution "Blue Jay" "x" "x" "/species/abc" "T").2.2.1
      (by decide) (by decide)

/-- Claim C8 counterexample: one malformed link in the generic fallback
strategy aborts the whole batch — `scrape_alerts` raises instead of skipping
the element and keeping the well-formed link after it. -/
theorem batch_abort_counterexample :
    scrape_alerts
      ⟨[], [], [Node.broken, Node.elem "Blue Jay" (some "/species/blujay")]⟩
      "T" = .error () := rfl

/-- Claim C8 (amended): the observation-row and species-section strategies
isolate per-element failures — an element whose extraction raises internally
is skipped and the remaining elements are still processed — but the
generic-link strategy has no per-element wrapper, so a failing link aborts
its whole batch. -/
theorem per_element_isolation (l1 l2 : List Row) (r : Row)
    (n1 n2 : List Node) (sec : Node) (rest : List Node) (ts : String) :
    (parse_observation_row_core r ts = .error () →
      (l1 ++ r :: l2).filterMap (fun x => parse_observation_row x ts) =
        l1.filterMap (fun x => parse_observation_row x ts) ++
          l2.filterMap (fun x => parse_observation_row x ts)) ∧
    (parse_species_section_core sec ts = .error () →
      (n1 ++ sec :: n2).filterMap (fun x => parse_species_section x ts) =
        n1.filterMap (fun x => parse_species_section x ts) ++
          n2.filterMap (fun x => parse_species_section x ts)) ∧
    parse_generic_alerts (Node.broken :: rest) ts = .error () := by
  refine ⟨?_, ?_, ?_⟩
  · intro h
    have hr : parse_observation_row r ts = none := by
      simp [parse_observation_row, h]
    simp [List.filterMap_append, List.filterMap_cons, hr]
  · intro h
    have hs : parse_species_section sec ts = none := by
      simp [parse_species_section, h]
    simp [List.filterMap_append, List.filterMap_cons, hs]
  · simp [parse_generic_alerts, get_text, Bind.bind, Except.bind]

/-- Witness for C8: a row whose species element is malformed is skipped
while the surrounding rows still parse. -/
theorem per_element_isolation_witness :
    ([(⟨some (.elem "Blue Jay" none), none, none, none, none⟩ : Row)] ++
        (⟨some Node.broken, none, none, none, none⟩ : Row) :: []).filterMap
      (fun x => parse_observation_row x "T") =
      [(⟨some (.elem "Blue Jay" none), none, none, none, none⟩ : Row)].filterMap
        (fun x => parse_observation_row x "T") ++
      ([] : List Row).filterMap (fun x => parse_observation_row x "T") :=
  (per_element_isolation
    [⟨some (.elem "Blue Jay" none), none, none, none, none⟩] []
    ⟨some Node.broken, none, none, none, none⟩ [] [] Node.broken [] "T").1 rfl

/-- Claim C10: the species-section strategy drops a section whose text is
shorter than 3 characters and truncates the species field to the first 100
characters; the generic-link strategy drops a link whose text has length 2
or less. -/
theorem fallback_gating (sec link : Node) (t ts : String) (rest : List Node) :
    (get_text sec = .ok t → t.length < 3 →
      parse_species_section sec ts = none) ∧
    (get_text sec = .ok t → 3 ≤ t.length →
      (parse_species_section sec ts).map (fun s => s.species) =
        some (t.take 100)) ∧
    (get_text link = .ok t → t.length ≤ 2 →
      parse_generic_alerts (link :: rest) ts =
        parse_generic_alerts rest ts) := by
  refine ⟨?_, ?_, ?_⟩
  · intro h hl
    cases sec with
    | broken => cases h
    | elem tx hr =>
      simp only [get_text, Except.ok.injEq] at h
      subst h
      simp [parse_species_section, parse_species_section_core, get_text, hl,
        Bind.bind, Except.bind, Pure.pure, Except.pure]
  · intro h hl
    cases sec with
    | broken => cases h
    | elem tx hr =>
      simp only [get_text, Except.ok.injEq] at h
      subst h
      have hl' : ¬(tx.length < 3) := by omega
      simp [parse_species_section, parse_species_section_core, get_text, hl',
        Bind.bind, Except.bind, Pure.pure, Except.pure]
  · intro h hl
    cases link with
    | broken => cases h
    | elem tx hr =>
      simp only [get_text, Except.ok.injEq] at h
      subst h
      have hc : ¬(¬tx = "" ∧ 2 < tx.length) := fun hx => absurd hx.2 (by omega)
      simp [parse_generic_alerts, get_text, hc,
        Bind.bind, Except.bind, Pure.pure, Except.pure]

/-- Witness for C10: "ab" is dropped by both fallback strategies, and a long
section text is kept truncated. -/
theorem fallback_gating_witness :
    parse_species_section (.elem "ab" none) "T" = none ∧
    (parse_species_section (.elem "Blue Jay" none) "T").map
      (fun s => s.species) = some (("Blue Jay" : String).take 100) ∧
    parse_generic_alerts [.elem "ab" (some "/species/x")] "T" =
      parse_generic_alerts [] "T" := by
  refine ⟨?_, ?_, ?_⟩
  · exact (fallback_gating (.elem "ab" none) Node.broken "ab" "T" []).1
      rfl (by decide)
  · exact (fallback_gating (.elem "Blue Jay" none) Node.broken "Blue Jay" "T"
      []).2.1 rfl (by decide)
  · exact (fallback_gating Node.broken (.elem "ab" (some "/species/x")) "ab"
      "T" []).2.2 rfl (by decide)
